import Mathlib

/-!
Shallow embedding of `src/apps/desktop/src-tauri/src/interactive_python.rs`:
the `PythonSessionManager` with operations `start_python_session`,
`send_input`, `get_output`, `is_session_running`, `close_session`, plus the
per-session output-pump thread.

External effects (PTY creation, process spawn, `try_wait` liveness probes,
writer write/flush results, chunks arriving on the output channel) are made
explicit parameters: each operation is a pure function of the registry, the
session identifier, and the outcome of the external calls it performs, and
returns the Rust function's `Result` together with the updated registry.
-/

namespace InteractivePython

/-- Outcome of `child.try_wait()` on a `portable_pty::Child`:
`Ok(Some(status))` with its success flag, `Ok(None)`, or `Err(e)`. -/
inductive TryWait where
  | exited (success : Bool)
  | running
  | err (msg : String)
deriving DecidableEq, Repr

/-- The `PythonSession` struct. The PTY pair and writer handles are modelled
by their observable content: `queue` is the list of chunks currently sitting
in `output_receiver` (front = oldest), `written` is the sequence of inputs
successfully written to `writer`, and `child` is what the next
`child.try_wait()` probe reports. -/
structure PythonSession where
  session_id : String
  queue : List String
  written : List String
  child : TryWait
deriving DecidableEq, Repr

/-- The registry `sessions: Arc<Mutex<HashMap<String, PythonSession>>>`,
modelled as a lookup function. -/
def Registry := String → Option PythonSession

/-- The empty registry, `HashMap::new()`. -/
def Registry.empty : Registry := fun _ => none

/-- The registry after `sessions.insert(k, s)`. -/
def Registry.insert (r : Registry) (k : String) (s : PythonSession) : Registry :=
  fun k' => if k' = k then some s else r k'

/-- The registry after `sessions.remove(&k)`. -/
def Registry.remove (r : Registry) (k : String) : Registry :=
  fun k' => if k' = k then none else r k'

/-- Outcomes of the external calls made by `start_python_session` before its
`try_wait` branch: PTY creation, spawn, and reader cloning can each fail;
on success the grace-period probe reports `probe`, the chunks the pump put on
the channel during the grace period are `arrived`, and `take_writer` fails
with `some e` or succeeds with `none`. -/
inductive StartEnv where
  | ptyFail (e : String)
  | spawnFail (e : String)
  | readerFail (e : String)
  | ok (probe : TryWait) (arrived : List String) (writerFail : Option String)
deriving DecidableEq, Repr

/-- The body of `PythonSessionManager::start_python_session`, as a function of
the registry, the freshly generated `session_id`, and the external outcomes. -/
def start_python_session (reg : Registry) (session_id : String) (env : StartEnv) :
    Except String String × Registry :=
  match env with
  | .ptyFail e => (.error ("Failed to create PTY: " ++ e), reg)
  | .spawnFail e => (.error ("Failed to spawn Python process: " ++ e), reg)
  | .readerFail e => (.error ("Failed to clone reader: " ++ e), reg)
  | .ok probe arrived writerFail =>
    match probe with
    | .exited success =>
        let full_output := String.join arrived
        if success then (.ok full_output, reg)
        else (.error full_output, reg)
    | .running =>
        match writerFail with
        | some e => (.error ("Failed to get writer: " ++ e), reg)
        | none =>
            let session : PythonSession :=
              { session_id := session_id, queue := arrived, written := [],
                child := .running }
            (.ok ("INTERACTIVE_SESSION:" ++ session_id),
             reg.insert session_id session)
    | .err e => (.error ("Failed to check process status: " ++ e), reg)

/-- Outcome of the `write_all` / `flush` pair inside `send_input`. -/
inductive WriteEnv where
  | ok
  | writeFail (e : String)
  | flushFail (e : String)
deriving DecidableEq, Repr

/-- The body of `PythonSessionManager::send_input`. On `writeFail` nothing is
written; on `flushFail` the `write_all` has already happened. In every case
the session stays in the registry. -/
def send_input (reg : Registry) (session_id input : String) (env : WriteEnv) :
    Except String Unit × Registry :=
  match reg session_id with
  | some s =>
    match env with
    | .ok => (.ok (), reg.insert session_id { s with written := s.written ++ [input] })
    | .writeFail e => (.error ("Failed to write input: " ++ e), reg)
    | .flushFail e =>
        (.error ("Failed to flush input: " ++ e),
         reg.insert session_id { s with written := s.written ++ [input] })
  | none => (.error "Session not found", reg)

/-- The synthetic chunk `get_output` appends for a given `try_wait` outcome:
one marker when the child has exited or the probe errored, nothing while it
is still running. -/
def markerOf : TryWait → List String
  | .exited true => ["\n[Program finished successfully]"]
  | .exited false => ["\n[Program exited with error]"]
  | .running => []
  | .err _ => ["\n[Program terminated unexpectedly]"]

/-- The body of `PythonSessionManager::get_output`: drain every chunk
available on the channel (the `try_recv` loop empties `queue` into
`outputs`), then probe `try_wait` and push the corresponding final message.
The session is never removed here (the code comment defers removal to the
caller). -/
def get_output (reg : Registry) (session_id : String) :
    Except String (List String) × Registry :=
  match reg session_id with
  | some s =>
    let outputs := s.queue
    let reg' := reg.insert session_id { s with queue := [] }
    match s.child with
    | .exited true =>
        (.ok (outputs ++ ["\n[Program finished successfully]"]), reg')
    | .exited false =>
        (.ok (outputs ++ ["\n[Program exited with error]"]), reg')
    | .running => (.ok outputs, reg')
    | .err _ =>
        (.ok (outputs ++ ["\n[Program terminated unexpectedly]"]), reg')
  | none => (.error "Session not found", reg)

/-- The body of `PythonSessionManager::is_session_running`: `Ok(false)` when
the child exited, `Ok(true)` when still running, and `Ok(false)` too when the
probe itself errors. -/
def is_session_running (reg : Registry) (session_id : String) :
    Except String Bool × Registry :=
  match reg session_id with
  | some s =>
    match s.child with
    | .exited _ => (.ok false, reg)
    | .running => (.ok true, reg)
    | .err _ => (.ok false, reg)
  | none => (.error "Session not found", reg)

/-- The body of `PythonSessionManager::close_session`: unconditional remove,
always `Ok(())`. -/
def close_session (reg : Registry) (session_id : String) :
    Except String Unit × Registry :=
  (.ok (), reg.remove session_id)

/-- Effect on the registry of the pump thread delivering one chunk to a
registered session's channel (`output_sender.send(chunk)`); a send to an
unregistered session's dropped receiver fails and changes nothing. -/
def pumpDeliver (reg : Registry) (session_id chunk : String) : Registry :=
  match reg session_id with
  | some s => reg.insert session_id { s with queue := s.queue ++ [chunk] }
  | none => reg

/-- Environment step: the child's observable `try_wait` state changes (for
example the process exits). -/
def childBecomes (reg : Registry) (session_id : String) (t : TryWait) : Registry :=
  match reg session_id with
  | some s => reg.insert session_id { s with child := t }
  | none => reg

/-- One step of the whole system: a manager operation, a pump delivery, or a
child-state change. -/
inductive MStep where
  | startS (session_id : String) (env : StartEnv)
  | feedS (session_id input : String) (env : WriteEnv)
  | drainS (session_id : String)
  | statusS (session_id : String)
  | closeS (session_id : String)
  | pumpS (session_id chunk : String)
  | childS (session_id : String) (t : TryWait)
deriving DecidableEq, Repr

/-- Registry after one step. -/
def mstep (reg : Registry) : MStep → Registry
  | .startS sid env => (start_python_session reg sid env).2
  | .feedS sid input env => (send_input reg sid input env).2
  | .drainS sid => (get_output reg sid).2
  | .statusS sid => (is_session_running reg sid).2
  | .closeS sid => (close_session reg sid).2
  | .pumpS sid chunk => pumpDeliver reg sid chunk
  | .childS sid t => childBecomes reg sid t

/-- Registry after a sequence of steps. -/
def mrun (reg : Registry) : List MStep → Registry
  | [] => reg
  | e :: es => mrun (mstep reg e) es

/-- Liveness answer of `is_session_running` as a function of the probe:
`true` only while running; an exited child and a probe error both yield
`false`. -/
def runningBool : TryWait → Bool
  | .running => true
  | .exited _ => false
  | .err _ => false

/-- The session identifier an individual step operates on. -/
def MStep.target : MStep → String
  | .startS sid _ => sid
  | .feedS sid _ _ => sid
  | .drainS sid => sid
  | .statusS sid => sid
  | .closeS sid => sid
  | .pumpS sid _ => sid
  | .childS sid _ => sid

/-- Steps compatible with observing session `sid` as a stable running
session: anything except closing it, a child-state change on it, or a
re-start under the same identifier. -/
def okStep (sid : String) : MStep → Bool
  | .closeS sid' => sid' != sid
  | .childS sid' _ => sid' != sid
  | .startS sid' _ => sid' != sid
  | _ => true

/-- Chunk contribution of one step to what `drain` hands the caller for
session `sid`: the full `get_output` result when the step is a drain of
`sid`, nothing otherwise. -/
def drainHead (sid : String) (reg : Registry) : MStep → List String
  | .drainS sid' =>
      if sid' = sid then
        match (get_output reg sid').1 with
        | .ok outs => outs
        | .error _ => []
      else []
  | _ => []

/-- Chunk contribution of one step to what the pump delivered for `sid`. -/
def pumpHead (sid : String) : MStep → List String
  | .pumpS sid' c => if sid' = sid then [c] else []
  | _ => []

/-- Everything `drain` returned for session `sid` along a run, concatenated
in call order. -/
def drainedChunks (sid : String) : Registry → List MStep → List String
  | _, [] => []
  | reg, e :: es => drainHead sid reg e ++ drainedChunks sid (mstep reg e) es

/-- Everything the pump delivered for session `sid` along a run, in delivery
order. -/
def pumpedChunks (sid : String) : List MStep → List String
  | [] => []
  | e :: es => pumpHead sid e ++ pumpedChunks sid es

/-- Atomic actions of one manager operation, in source order.
`lockAcquire`/`lockRelease` delimit the `self.sessions.lock().unwrap()`
critical section; the guard is dropped at the end of the function body. -/
inductive Action where
  | lockAcquire
  | lockRelease
  | registryLookup (sid : String)
  | registryInsert (sid : String)
  | registryRemove (sid : String)
  | writerWrite (sid input : String)
  | writerFlush (sid : String)
  | channelDrain (sid : String)
  | childProbe (sid : String)
deriving DecidableEq, Repr

/-- Action trace of `send_input` on a registered session: the registry lock
is acquired first and held through the PTY write and flush. -/
def send_input_actions (sid input : String) : List Action :=
  [.lockAcquire, .registryLookup sid, .writerWrite sid input, .writerFlush sid,
   .lockRelease]

/-- Action trace of `get_output` on a registered session: lock, lookup,
channel drain loop, liveness probe, unlock. -/
def get_output_actions (sid : String) : List Action :=
  [.lockAcquire, .registryLookup sid, .channelDrain sid, .childProbe sid,
   .lockRelease]

/-- Action trace of `is_session_running` on a registered session. -/
def is_session_running_actions (sid : String) : List Action :=
  [.lockAcquire, .registryLookup sid, .childProbe sid, .lockRelease]

/-- Action trace of `close_session`. -/
def close_session_actions (sid : String) : List Action :=
  [.lockAcquire, .registryRemove sid, .lockRelease]

/-- Actions performed while the registry mutex is held, given whether it is
held at the start of the trace. -/
def lockedActions : List Action → Bool → List Action
  | [], _ => []
  | .lockAcquire :: rest, _ => lockedActions rest true
  | .lockRelease :: rest, _ => lockedActions rest false
  | a :: rest, held => (if held then [a] else []) ++ lockedActions rest held

/-- Registry insert/remove/lookup steps — the only actions the claim allows
to be mutually exclusive across callers. -/
def isRegistryAction : Action → Bool
  | .registryLookup _ => true
  | .registryInsert _ => true
  | .registryRemove _ => true
  | _ => false

/-! Registry lookup lemmas. -/

theorem Registry.lookup_insert_self (r : Registry) (k : String) (s : PythonSession) :
    r.insert k s k = some s := by
  simp [Registry.insert]

theorem Registry.lookup_insert_of_ne (r : Registry) {k k' : String} (s : PythonSession)
    (h : k' ≠ k) : r.insert k s k' = r k' := by
  simp [Registry.insert, h]

theorem Registry.lookup_remove_self (r : Registry) (k : String) : r.remove k k = none := by
  simp [Registry.remove]

theorem Registry.lookup_remove_of_ne (r : Registry) {k k' : String} (h : k' ≠ k) :
    r.remove k k' = r k' := by
  simp [Registry.remove, h]

/-- Shape of `get_output` on a registered session: all buffered chunks in
order, then the marker dictated by the liveness probe; the session stays
registered with an emptied queue. -/
theorem get_output_shape (reg : Registry) (sid : String) (s : PythonSession)
    (h : reg sid = some s) :
    get_output reg sid
      = (.ok (s.queue ++ markerOf s.child), reg.insert sid { s with queue := [] }) := by
  cases hc : s.child with
  | exited b => cases b <;> simp [get_output, h, hc, markerOf]
  | running => simp [get_output, h, hc, markerOf]
  | err e => simp [get_output, h, hc, markerOf]

/-- Registry component of `is_session_running`: always unchanged. -/
theorem is_session_running_reg (reg : Registry) (sid : String) :
    (is_session_running reg sid).2 = reg := by
  unfold is_session_running
  (repeat' split) <;> rfl

/-- Lookup through a pump delivery addressed to a different session. -/
theorem pumpDeliver_lookup_ne (reg : Registry) (sid' c sid : String)
    (h : sid ≠ sid') : pumpDeliver reg sid' c sid = reg sid := by
  unfold pumpDeliver
  cases hr : reg sid' <;> simp [Registry.insert, h]

/-- Lookup through a child-state change addressed to a different session. -/
theorem childBecomes_lookup_ne (reg : Registry) (sid' : String) (t : TryWait)
    (sid : String) (h : sid ≠ sid') : childBecomes reg sid' t sid = reg sid := by
  unfold childBecomes
  cases hr : reg sid' <;> simp [Registry.insert, h]

/-- A step addressed to a different identifier leaves `sid`'s entry
untouched. -/
theorem mstep_lookup_ne (reg : Registry) (e : MStep) (sid : String)
    (h : sid ≠ e.target) : mstep reg e sid = reg sid := by
  cases e with
  | pumpS sid' c =>
      simp only [MStep.target] at h
      exact pumpDeliver_lookup_ne reg sid' c sid h
  | childS sid' t =>
      simp only [MStep.target] at h
      exact childBecomes_lookup_ne reg sid' t sid h
  | _ =>
      simp only [MStep.target] at h
      simp only [mstep, start_python_session, send_input, get_output,
        is_session_running, close_session]
      (repeat' split) <;> simp [Registry.insert, Registry.remove, h]

/-- A step addressed to `sid` that is not a `close` keeps `sid` registered. -/
theorem mstep_lookup_self (reg : Registry) (e : MStep) (s : PythonSession)
    (h : reg e.target = some s) (hne : e ≠ .closeS e.target) :
    ∃ s', mstep reg e e.target = some s' := by
  cases e <;>
    simp only [MStep.target] at h hne ⊢ <;>
    simp only [mstep, start_python_session, send_input, get_output,
      is_session_running, close_session, pumpDeliver, childBecomes] <;>
    (repeat' split) <;>
    first
      | exact absurd rfl hne
      | exact ⟨s, h⟩
      | exact ⟨_, by simp [Registry.insert]⟩
      | simp_all [Registry.insert]

/-- Along any run free of `close sid` steps, session `sid` stays
registered. -/
theorem mrun_preserves_mem (sid : String) (steps : List MStep) :
    ∀ reg s, reg sid = some s → (∀ e ∈ steps, e ≠ MStep.closeS sid) →
      ∃ s', mrun reg steps sid = some s' := by
  induction steps with
  | nil => exact fun reg s h _ => ⟨s, h⟩
  | cons e es ih =>
      intro reg s h hcl
      by_cases ht : sid = e.target
      · have hne : e ≠ .closeS e.target := ht ▸ hcl e (List.mem_cons_self e es)
        obtain ⟨s₂, h₂⟩ := mstep_lookup_self reg e s (ht ▸ h) hne
        exact ih (mstep reg e) s₂ (ht ▸ h₂)
          (fun x hx => hcl x (List.mem_cons_of_mem e hx))
      · have h₂ : mstep reg e sid = some s := (mstep_lookup_ne reg e sid ht).trans h
        exact ih (mstep reg e) s h₂ (fun x hx => hcl x (List.mem_cons_of_mem e hx))

/-- Evolution of a running session's queue under one compatible step: the
entry stays registered and running, and the chunks handed out by a drain
plus the remaining queue balance the previous queue plus pump deliveries. -/
theorem mstep_queue_evolution (reg : Registry) (e : MStep) (sid : String)
    (s : PythonSession) (h : reg sid = some s) (hrun : s.child = .running)
    (hok : okStep sid e = true) :
    ∃ s₂, mstep reg e sid = some s₂ ∧ s₂.child = .running ∧
      drainHead sid reg e ++ s₂.queue = s.queue ++ pumpHead sid e := by
  cases e with
  | startS sid' env =>
      simp only [okStep, bne_iff_ne, ne_eq] at hok
      refine ⟨s, ?_, hrun, by simp [drainHead, pumpHead]⟩
      rw [mstep_lookup_ne reg _ sid (by simpa [MStep.target] using Ne.symm hok)]
      exact h
  | feedS sid' input env =>
      by_cases hs : sid = sid'
      · subst hs
        cases env with
        | ok =>
            refine ⟨{ s with written := s.written ++ [input] }, ?_, hrun,
              by simp [drainHead, pumpHead]⟩
            simp [mstep, send_input, h, Registry.insert]
        | writeFail e =>
            refine ⟨s, ?_, hrun, by simp [drainHead, pumpHead]⟩
            simp [mstep, send_input, h]
        | flushFail e =>
            refine ⟨{ s with written := s.written ++ [input] }, ?_, hrun,
              by simp [drainHead, pumpHead]⟩
            simp [mstep, send_input, h, Registry.insert]
      · refine ⟨s, ?_, hrun, by simp [drainHead, pumpHead]⟩
        rw [mstep_lookup_ne reg _ sid (by simpa [MStep.target] using hs)]
        exact h
  | drainS sid' =>
      by_cases hs : sid' = sid
      · subst hs
        refine ⟨{ s with queue := [] }, ?_, hrun, ?_⟩
        · simp [mstep, get_output_shape reg sid' s h, Registry.insert]
        · simp [drainHead, pumpHead, get_output_shape reg sid' s h, hrun, markerOf]
      · have hs' : ¬ sid = sid' := fun hEq => hs hEq.symm
        refine ⟨s, ?_, hrun, by simp [drainHead, pumpHead, hs]⟩
        rw [mstep_lookup_ne reg _ sid (by simpa [MStep.target] using hs')]
        exact h
  | statusS sid' =>
      refine ⟨s, ?_, hrun, by simp [drainHead, pumpHead]⟩
      show (is_session_running reg sid').2 sid = some s
      rw [is_session_running_reg]
      exact h
  | closeS sid' =>
      simp only [okStep, bne_iff_ne, ne_eq] at hok
      refine ⟨s, ?_, hrun, by simp [drainHead, pumpHead]⟩
      show (reg.remove sid') sid = some s
      rw [Registry.lookup_remove_of_ne reg (Ne.symm hok)]
      exact h
  | pumpS sid' c =>
      by_cases hs : sid = sid'
      · subst hs
        refine ⟨{ s with queue := s.queue ++ [c] }, ?_, hrun,
          by simp [drainHead, pumpHead]⟩
        simp [mstep, pumpDeliver, h, Registry.insert]
      · have hs' : ¬ sid' = sid := fun hEq => hs hEq.symm
        refine ⟨s, ?_, hrun, by simp [drainHead, pumpHead, hs']⟩
        rw [mstep_lookup_ne reg _ sid (by simpa [MStep.target] using hs)]
        exact h
  | childS sid' t =>
      simp only [okStep, bne_iff_ne, ne_eq] at hok
      refine ⟨s, ?_, hrun, by simp [drainHead, pumpHead]⟩
      rw [mstep_lookup_ne reg _ sid (by simpa [MStep.target] using Ne.symm hok)]
      exact h

/-- C1: for a program that exits before the grace period elapses, `start`
drains the output channel non-blockingly and returns a Batch Outcome whose
text is the in-order concatenation of the chunks that arrived on the channel
before the drain, with the result variant given by the child's exit success;
the registry is unchanged, so no session is registered. -/
theorem c1_batch_outcome (reg : Registry) (session_id : String) (success : Bool)
    (arrived : List String) (wf : Option String) :
    start_python_session reg session_id (.ok (.exited success) arrived wf)
      = (if success then .ok (String.join arrived) else .error (String.join arrived), reg) := by
  cases success <;> rfl

/-- C7: `close` always succeeds, removes the session if present, and is a
no-op success on an absent identifier; afterwards the identifier is no longer
present in the registry. -/
theorem c7_close_always_succeeds (reg : Registry) (session_id : String) :
    close_session reg session_id = (.ok (), reg.remove session_id)
    ∧ (close_session reg session_id).2 session_id = none := by
  exact ⟨rfl, by simp [close_session, Registry.remove]⟩

/-- C9: a batch program that exits successfully after printing text of the
form `INTERACTIVE_SESSION:<id>` produces exactly the same success value as an
interactive start that allocated identifier `<id>`: the two outcomes are
indistinguishable at the public interface. -/
theorem c9_batch_forges_interactive :
    (start_python_session Registry.empty "b"
        (.ok (.exited true) ["INTERACTIVE_SESSION:abc"] none)).1
      = (start_python_session Registry.empty "abc" (.ok .running [] none)).1 := by
  rfl

/-- C10: a failed batch run returns the captured program output on the error
channel, so its value can coincide exactly with a spawn failure, a PTY
creation failure, or a liveness-check failure carrying the same text. -/
theorem c10_failure_channel_collision :
    (start_python_session Registry.empty "a"
        (.ok (.exited false) ["Failed to spawn Python process: boom"] none)).1
      = (start_python_session Registry.empty "b" (.spawnFail "boom")).1
    ∧ (start_python_session Registry.empty "a"
        (.ok (.exited false) ["Failed to create PTY: boom"] none)).1
      = (start_python_session Registry.empty "b" (.ptyFail "boom")).1
    ∧ (start_python_session Registry.empty "a"
        (.ok (.exited false) ["Failed to check process status: boom"] none)).1
      = (start_python_session Registry.empty "b" (.ok (.err "boom") [] none)).1 := by
  exact ⟨rfl, rfl, rfl⟩

/-- C3: for a program still running when the grace period elapses, `start`
takes the writer, constructs a session with the chunks that arrived during
the grace period, inserts it into the registry under the fresh identifier,
returns only that identifier (behind the `INTERACTIVE_SESSION:` tag), and
the identifier stays present across any run that does not close it. -/
theorem c3_interactive_start (reg : Registry) (sid : String)
    (arrived : List String) (steps : List MStep)
    (hcl : ∀ e ∈ steps, e ≠ MStep.closeS sid) :
    start_python_session reg sid (.ok .running arrived none)
      = (.ok ("INTERACTIVE_SESSION:" ++ sid),
         reg.insert sid ⟨sid, arrived, [], .running⟩)
    ∧ ∃ s', mrun (reg.insert sid ⟨sid, arrived, [], .running⟩) steps sid
        = some s' := by
  exact ⟨rfl, mrun_preserves_mem sid steps _ _
    (Registry.lookup_insert_self _ _ _) hcl⟩

/-- Witness for C3 at a concrete registry, identifier and step list. -/
theorem c3_interactive_start_witness :
    (∀ e ∈ [MStep.pumpS "a" "x", MStep.drainS "a", MStep.feedS "a" "in" .ok,
        MStep.closeS "b"], e ≠ MStep.closeS "a")
    ∧ (start_python_session Registry.empty "a" (.ok .running ["hi"] none)
        = (.ok ("INTERACTIVE_SESSION:" ++ "a"),
           Registry.empty.insert "a" ⟨"a", ["hi"], [], .running⟩)
       ∧ ∃ s', mrun (Registry.empty.insert "a" ⟨"a", ["hi"], [], .running⟩)
           [MStep.pumpS "a" "x", MStep.drainS "a", MStep.feedS "a" "in" .ok,
            MStep.closeS "b"] "a" = some s') :=
  ⟨by decide, c3_interactive_start Registry.empty "a" ["hi"] _ (by decide)⟩

/-- C4: within one session whose child keeps running, the chunks handed out
by successive `drain` calls, concatenated in call order together with the
chunks still queued at the end, are exactly the initial queue followed by
the pump's deliveries in delivery order: order is preserved and no chunk is
dropped. -/
theorem c4_drain_preserves_order (sid : String) (steps : List MStep)
    (reg : Registry) (s : PythonSession) (h : reg sid = some s)
    (hrun : s.child = .running) (hok : ∀ e ∈ steps, okStep sid e = true) :
    ∃ s', mrun reg steps sid = some s' ∧ s'.child = .running ∧
      drainedChunks sid reg steps ++ s'.queue
        = s.queue ++ pumpedChunks sid steps := by
  induction steps generalizing reg s with
  | nil => exact ⟨s, h, hrun, by simp [drainedChunks, pumpedChunks, mrun]⟩
  | cons e es ih =>
      obtain ⟨s₂, h₂, hrun₂, heq⟩ :=
        mstep_queue_evolution reg e sid s h hrun (hok e (List.mem_cons_self e es))
      obtain ⟨s', h', hrun', heq'⟩ :=
        ih (mstep reg e) s₂ h₂ hrun₂ (fun x hx => hok x (List.mem_cons_of_mem e hx))
      refine ⟨s', h', hrun', ?_⟩
      calc drainedChunks sid reg (e :: es) ++ s'.queue
          = drainHead sid reg e ++ (drainedChunks sid (mstep reg e) es ++ s'.queue) := by
            simp [drainedChunks, List.append_assoc]
        _ = drainHead sid reg e ++ (s₂.queue ++ pumpedChunks sid es) := by rw [heq']
        _ = (drainHead sid reg e ++ s₂.queue) ++ pumpedChunks sid es := by
            simp [List.append_assoc]
        _ = (s.queue ++ pumpHead sid e) ++ pumpedChunks sid es := by rw [heq]
        _ = s.queue ++ pumpedChunks sid (e :: es) := by
            simp [pumpedChunks, List.append_assoc]

/-- Witness for C4 at a concrete session and step list. -/
theorem c4_drain_preserves_order_witness :
    ((Registry.empty.insert "a" ⟨"a", ["x"], [], .running⟩) "a"
        = some ⟨"a", ["x"], [], .running⟩)
    ∧ (PythonSession.child ⟨"a", ["x"], [], .running⟩ = .running)
    ∧ (∀ e ∈ [MStep.pumpS "a" "y", MStep.drainS "a", MStep.pumpS "a" "z",
          MStep.feedS "a" "in" .ok, MStep.statusS "a", MStep.closeS "b"],
        okStep "a" e = true)
    ∧ ∃ s', mrun (Registry.empty.insert "a" ⟨"a", ["x"], [], .running⟩)
          [MStep.pumpS "a" "y", MStep.drainS "a", MStep.pumpS "a" "z",
           MStep.feedS "a" "in" .ok, MStep.statusS "a", MStep.closeS "b"] "a"
          = some s'
        ∧ s'.child = .running
        ∧ drainedChunks "a" (Registry.empty.insert "a" ⟨"a", ["x"], [], .running⟩)
            [MStep.pumpS "a" "y", MStep.drainS "a", MStep.pumpS "a" "z",
             MStep.feedS "a" "in" .ok, MStep.statusS "a", MStep.closeS "b"]
            ++ s'.queue
          = PythonSession.queue ⟨"a", ["x"], [], .running⟩
            ++ pumpedChunks "a"
              [MStep.pumpS "a" "y", MStep.drainS "a", MStep.pumpS "a" "z",
               MStep.feedS "a" "in" .ok, MStep.statusS "a", MStep.closeS "b"] :=
  ⟨by decide, by decide, by decide,
   c4_drain_preserves_order "a" _ _ _ (by decide) (by decide) (by decide)⟩

/-- C2 counterexample: on a session whose child has exited, a second `drain`
call (the session is never removed by `get_output`) appends the terminal
marker again, so the marker does appear twice across repeated drains. -/
theorem c2_marker_repeats_counterexample :
    (get_output (Registry.empty.insert "s" ⟨"s", ["out"], [], .exited true⟩) "s").1
      = .ok ["out", "\n[Program finished successfully]"]
    ∧ (get_output
        (get_output (Registry.empty.insert "s" ⟨"s", ["out"], [], .exited true⟩) "s").2 "s").1
      = .ok ["\n[Program finished successfully]"] := by
  exact ⟨rfl, rfl⟩

/-- C2 (amended): each single `drain` on an exited session returns all
remaining buffered output followed by exactly one terminal marker matching
the exit success, and the session stays registered with an emptied queue —
so every subsequent drain returns the marker (alone) again. -/
theorem c2_marker_once_per_drain (reg : Registry) (sid : String) (s : PythonSession)
    (b : Bool) :
    get_output (reg.insert sid { s with child := .exited b }) sid
      = (.ok (s.queue ++ markerOf (.exited b)),
         (reg.insert sid { s with child := .exited b }).insert sid
           { s with child := .exited b, queue := [] })
    ∧ (get_output ((reg.insert sid { s with child := .exited b }).insert sid
           { s with child := .exited b, queue := [] }) sid).1
      = .ok (markerOf (.exited b)) := by
  constructor
  · exact get_output_shape _ sid _ (Registry.lookup_insert_self _ _ _)
  · rw [get_output_shape _ sid _ (Registry.lookup_insert_self _ _ _)]
    simp

/-- C5: `feed` on an absent identifier fails with the session-not-found
error; on a registered session it writes the given bytes and flushes, and
when the write or the flush fails the error is surfaced to the caller while
the session remains registered. -/
theorem c5_feed_contract (reg : Registry) (sid input e : String) (s : PythonSession)
    (env : WriteEnv) :
    send_input (reg.remove sid) sid input env = (.error "Session not found", reg.remove sid)
    ∧ send_input (reg.insert sid s) sid input .ok
        = (.ok (), (reg.insert sid s).insert sid { s with written := s.written ++ [input] })
    ∧ send_input (reg.insert sid s) sid input (.writeFail e)
        = (.error ("Failed to write input: " ++ e), reg.insert sid s)
    ∧ send_input (reg.insert sid s) sid input (.flushFail e)
        = (.error ("Failed to flush input: " ++ e),
           (reg.insert sid s).insert sid { s with written := s.written ++ [input] })
    ∧ (send_input (reg.insert sid s) sid input (.writeFail e)).2 sid = some s
    ∧ (send_input (reg.insert sid s) sid input (.flushFail e)).2 sid
        = some { s with written := s.written ++ [input] } := by
  refine ⟨?_, ?_, ?_, ?_, ?_, ?_⟩
  · cases env <;> simp [send_input, Registry.lookup_remove_self]
  · simp [send_input, Registry.lookup_insert_self]
  · simp [send_input, Registry.lookup_insert_self]
  · simp [send_input, Registry.lookup_insert_self]
  · simp [send_input, Registry.lookup_insert_self]
  · simp [send_input, Registry.lookup_insert_self]

/-- C6 counterexample: on a session whose liveness probe errors,
`is_session_running` returns `Ok(false)` — it does not fail with a
status-check error. -/
theorem c6_probe_error_counterexample :
    (is_session_running (Registry.empty.insert "p" ⟨"p", [], [], .err "boom"⟩) "p").1
      = .ok false := by
  rfl

/-- C6 (amended): `status` on a registered session returns `Running` if the
child has not exited and not-running if it has, independent of draining
state; but a probe error is swallowed as `Ok(false)` (reported as
not-running) instead of failing. The registry is never modified, and an
absent identifier fails with the session-not-found error. -/
theorem c6_status_contract (reg : Registry) (sid : String) (s : PythonSession) :
    is_session_running (reg.insert sid s) sid
      = (.ok (runningBool s.child), reg.insert sid s)
    ∧ is_session_running (reg.remove sid) sid
      = (.error "Session not found", reg.remove sid) := by
  constructor
  · cases hc : s.child <;>
      simp [is_session_running, Registry.lookup_insert_self, runningBool, hc]
  · simp [is_session_running, Registry.lookup_remove_self]

/-- Result of `send_input` depends only on the target session's own entry. -/
theorem send_input_fst_local (reg reg' : Registry) (sid input : String)
    (env : WriteEnv) (h : reg sid = reg' sid) :
    (send_input reg sid input env).1 = (send_input reg' sid input env).1 := by
  unfold send_input
  rw [h]
  cases hr : reg' sid <;> cases env <;> rfl

/-- Result of `get_output` depends only on the target session's own entry. -/
theorem get_output_fst_local (reg reg' : Registry) (sid : String)
    (h : reg sid = reg' sid) :
    (get_output reg sid).1 = (get_output reg' sid).1 := by
  unfold get_output
  rw [h]
  cases hr : reg' sid with
  | none => rfl
  | some s => cases hc : s.child with
    | exited b => cases b <;> simp [hc]
    | running => simp [hc]
    | err e => simp [hc]

/-- Result of `is_session_running` depends only on the target session's own
entry. -/
theorem is_session_running_fst_local (reg reg' : Registry) (sid : String)
    (h : reg sid = reg' sid) :
    (is_session_running reg sid).1 = (is_session_running reg' sid).1 := by
  unfold is_session_running
  rw [h]
  cases hr : reg' sid with
  | none => rfl
  | some s => cases hc : s.child <;> simp [hc]

/-- C8 counterexample: the PTY write performed by `send_input` happens while
the registry mutex is held, and it is not a registry insert/remove/lookup —
so mutual exclusion across callers is not limited to registry steps. -/
theorem c8_lock_scope_counterexample :
    Action.writerWrite "a" "x" ∈ lockedActions (send_input_actions "a" "x") false
    ∧ isRegistryAction (.writerWrite "a" "x") = false := by
  exact ⟨by decide, rfl⟩

/-- C8 (amended): each operation reads and writes only its own session's
registry entry — it neither observes nor mutates another session's state —
but `feed`, `drain` and `status` hold the single registry mutex for their
entire body (PTY write/flush, channel drain and liveness probe included), so
operations on two distinct sessions are serialized by that one lock rather
than contending only on registry insert/remove/lookup steps. -/
theorem c8_ops_isolated_but_serialized (reg reg' : Registry)
    (sid sid' input : String) (env : WriteEnv)
    (h1 : reg sid = reg' sid) (h2 : sid' ≠ sid) :
    lockedActions (send_input_actions sid input) false
      = [.registryLookup sid, .writerWrite sid input, .writerFlush sid]
    ∧ lockedActions (get_output_actions sid) false
      = [.registryLookup sid, .channelDrain sid, .childProbe sid]
    ∧ lockedActions (is_session_running_actions sid) false
      = [.registryLookup sid, .childProbe sid]
    ∧ (send_input reg sid input env).1 = (send_input reg' sid input env).1
    ∧ (get_output reg sid).1 = (get_output reg' sid).1
    ∧ (is_session_running reg sid).1 = (is_session_running reg' sid).1
    ∧ (send_input reg sid input env).2 sid' = reg sid'
    ∧ (get_output reg sid).2 sid' = reg sid'
    ∧ (is_session_running reg sid).2 sid' = reg sid' := by
  refine ⟨rfl, rfl, rfl,
    send_input_fst_local reg reg' sid input env h1,
    get_output_fst_local reg reg' sid h1,
    is_session_running_fst_local reg reg' sid h1, ?_, ?_, ?_⟩
  · exact mstep_lookup_ne reg (.feedS sid input env) sid'
      (by simpa [MStep.target] using h2)
  · exact mstep_lookup_ne reg (.drainS sid) sid'
      (by simpa [MStep.target] using h2)
  · exact mstep_lookup_ne reg (.statusS sid) sid'
      (by simpa [MStep.target] using h2)

/-- Witness for C8 (amended) at two concrete registries agreeing on session
`a`, with `b` a distinct bystander session. -/
theorem c8_ops_isolated_but_serialized_witness :
    ((Registry.empty.insert "a" ⟨"a", [], [], .running⟩) "a"
        = ((Registry.empty.insert "b" ⟨"b", [], [], .running⟩).insert "a"
            ⟨"a", [], [], .running⟩) "a")
    ∧ ("b" ≠ "a")
    ∧ (lockedActions (send_input_actions "a" "x") false
        = [.registryLookup "a", .writerWrite "a" "x", .writerFlush "a"]
      ∧ lockedActions (get_output_actions "a") false
        = [.registryLookup "a", .channelDrain "a", .childProbe "a"]
      ∧ lockedActions (is_session_running_actions "a") false
        = [.registryLookup "a", .childProbe "a"]
      ∧ (send_input (Registry.empty.insert "a" ⟨"a", [], [], .running⟩) "a" "x" .ok).1
        = (send_input ((Registry.empty.insert "b" ⟨"b", [], [], .running⟩).insert "a"
            ⟨"a", [], [], .running⟩) "a" "x" .ok).1
      ∧ (get_output (Registry.empty.insert "a" ⟨"a", [], [], .running⟩) "a").1
        = (get_output ((Registry.empty.insert "b" ⟨"b", [], [], .running⟩).insert "a"
            ⟨"a", [], [], .running⟩) "a").1
      ∧ (is_session_running (Registry.empty.insert "a" ⟨"a", [], [], .running⟩) "a").1
        = (is_session_running ((Registry.empty.insert "b" ⟨"b", [], [], .running⟩).insert "a"
            ⟨"a", [], [], .running⟩) "a").1
      ∧ (send_input (Registry.empty.insert "a" ⟨"a", [], [], .running⟩) "a" "x" .ok).2 "b"
        = (Registry.empty.insert "a" ⟨"a", [], [], .running⟩) "b"
      ∧ (get_output (Registry.empty.insert "a" ⟨"a", [], [], .running⟩) "a").2 "b"
        = (Registry.empty.insert "a" ⟨"a", [], [], .running⟩) "b"
      ∧ (is_session_running (Registry.empty.insert "a" ⟨"a", [], [], .running⟩) "a").2 "b"
        = (Registry.empty.insert "a" ⟨"a", [], [], .running⟩) "b") :=
  ⟨by decide, by decide,
   c8_ops_isolated_but_serialized _ _ "a" "b" "x" .ok (by decide) (by decide)⟩

end InteractivePython
